import Mathlib

/-!
Shallow embedding of the MCP HTTP server from `src/main.rs` (repository
RGGH/mcp-server), together with proofs of the specification claims.

The Rust program keeps a registry of model handlers (a `HashMap<String,
ModelHandler>`) and a concurrent session store (`Arc<Mutex<HashMap<String,
Session>>>`).  Each accepted connection carries one HTTP-ish request whose
JSON body is decoded into an `MCPRequest`; `process_request` dispatches on
the method name and mutates the session store.  The embedding below passes
the session store explicitly and models the `uuid::Uuid::new_v4()` call by
an explicit `fresh` identifier argument (the uuid crate is an external
collaborator; the spec treats collisions as never happening).
-/

namespace MCP

/-- Model of `serde_json::Value`. -/
inductive Value where
  | null
  | bool (b : Bool)
  | num (n : Int)
  | str (s : String)
  | arr (elems : List Value)
  | obj (fields : List (String × Value))
deriving Repr

/-- Model of `Value::get(key)`: field lookup on a JSON object, `None` on
any other kind of value. -/
def Value.get (v : Value) (key : String) : Option Value :=
  match v with
  | .obj fields => fields.lookup key
  | _ => none

/-- The request envelope `MCPRequest { id, method, params }`. -/
structure MCPRequest where
  id : String
  method : String
  params : Value

/-- The error payload `MCPError { code, message }`. -/
structure MCPError where
  code : Int
  message : String
deriving Repr, DecidableEq

/-- The response envelope `MCPResponse { id, result, error }`.  In the Rust
struct `result` is a `Value` (serialized even when null) and `error` is an
`Option<MCPError>` (serialized as null when absent). -/
structure MCPResponse where
  id : String
  result : Value
  error : Option MCPError

/-- A model handler: `fn(prompt: &str, context: &[String]) ->
Result<String, Box<dyn Error + Send + Sync>>`, with the boxed error
represented by its display string. -/
def Handler : Type := String → List String → Except String String

/-- Session state: `Session { model, context }`. -/
structure Session where
  model : String
  context : List String
deriving Repr, DecidableEq

/-- The model registry `HashMap<String, ModelHandler>`, as an association
list (iteration order of the HashMap is fixed arbitrarily). -/
def Models : Type := List (String × Handler)

/-- The session store `HashMap<String, Session>`, as a finite-support map. -/
def Sessions : Type := String → Option Session

/-- `HashMap::insert` on the session store (overwrites). -/
def Sessions.insert (m : Sessions) (k : String) (v : Session) : Sessions :=
  fun k' => if k' = k then some v else m k'

/-- `HashMap::remove` on the session store. -/
def Sessions.remove (m : Sessions) (k : String) : Sessions :=
  fun k' => if k' = k then none else m k'

/-- The empty session store (`MCPServer::new`). -/
def emptySessions : Sessions := fun _ => none

/-- `MCPServer::error_response(id, code, message)`. -/
def error_response (id : String) (code : Int) (message : String) : MCPResponse :=
  { id := id, result := .null, error := some { code := code, message := message } }

/-- The parameter-extraction pattern used by every method arm:
`match request.params.get(k) { Some(Value::String(s)) => s, _ => return
invalid-params }`, as an option. -/
def getString (params : Value) (key : String) : Option String :=
  match params.get key with
  | some (.str s) => some s
  | _ => none

/-- `MCPServer::process_request`, with the session store passed and
returned explicitly (the Rust code mutates it under a mutex) and the
freshly generated uuid passed as `fresh`. -/
def process_request (request : MCPRequest) (models : Models)
    (sessions : Sessions) (fresh : String) : MCPResponse × Sessions :=
  if request.method = "session.create" then
    match getString request.params "model" with
    | none => (error_response request.id (-32602) "Invalid params: missing model", sessions)
    | some model =>
      if (models.lookup model).isSome then
        let session_id := fresh
        ({ id := request.id,
           result := .obj [("session_id", .str session_id)],
           error := none },
         sessions.insert session_id { model := model, context := [] })
      else
        (error_response request.id (-32602) ("Model not found: " ++ model), sessions)
  else if request.method = "session.generate" then
    match getString request.params "session_id" with
    | none => (error_response request.id (-32602) "Invalid params: missing session_id", sessions)
    | some session_id =>
      match getString request.params "prompt" with
      | none => (error_response request.id (-32602) "Invalid params: missing prompt", sessions)
      | some prompt =>
        match sessions session_id with
        | none => (error_response request.id (-32602) ("Session not found: " ++ session_id), sessions)
        | some session =>
          match models.lookup session.model with
          | none => (error_response request.id (-32603) "Internal error: model handler not found", sessions)
          | some model_handler =>
            match model_handler prompt session.context with
            | .ok response =>
              ({ id := request.id,
                 result := .obj [("response", .str response)],
                 error := none },
               sessions.insert session_id
                 { model := session.model,
                   context := session.context ++ [prompt, response] })
            | .error e =>
              (error_response request.id (-32603) ("Model error: " ++ e), sessions)
  else if request.method = "session.close" then
    match getString request.params "session_id" with
    | none => (error_response request.id (-32602) "Invalid params: missing session_id", sessions)
    | some session_id =>
      match sessions session_id with
      | none => (error_response request.id (-32602) ("Session not found: " ++ session_id), sessions)
      | some _ =>
        ({ id := request.id,
           result := .obj [("success", .bool true)],
           error := none },
         sessions.remove session_id)
  else if request.method = "models.list" then
    ({ id := request.id,
       result := .obj [("models", .arr (models.map (fun p => .str p.1)))],
       error := none },
     sessions)
  else
    (error_response request.id (-32601) ("Method not found: " ++ request.method), sessions)

/-- The JSON envelope built in `handle_client` when the body fails to
decode: `json!({ "id": "error", "error": { "code": -32700, "message":
format!("Parse error: {}", e) }, "result": null })`. -/
def parse_error_response (e : String) : MCPResponse :=
  { id := "error", result := .null,
    error := some { code := -32700, message := "Parse error: " ++ e } }

/-- One framed reply written back on the stream: either a JSON envelope
(whose Content-Length the code computes from the serialized body) or one
of the two fixed plain-text rejections (whose Content-Length is a
hard-coded literal). -/
inductive HttpReply where
  | json (status : String) (envelope : MCPResponse)
  | text (status : String) (contentLength : Nat) (body : String)

/-- The header/body separator `"\r\n\r\n"` as a character list. -/
def bodySep : List Char := ['\r', '\n', '\r', '\n']

/-- Model of `str::find("\r\n\r\n")` followed by taking the suffix after
the separator, on character lists: scan for the leftmost occurrence and
drop through it. -/
def findBodyAux : List Char → Option (List Char)
  | [] => none
  | c :: cs =>
    if bodySep.isPrefixOf (c :: cs) then some ((c :: cs).drop bodySep.length)
    else findBodyAux cs

/-- Everything after the first blank line of the request text, if any
(`request_str.find("\r\n\r\n")` and the slice at `body_start + 4`). -/
def findBody (s : String) : Option String :=
  (findBodyAux s.data).map (fun cs => ⟨cs⟩)

/-- Model of `str::starts_with` via character lists. -/
def strStartsWith (s pre : String) : Bool := pre.data.isPrefixOf s.data

/-- `MCPServer::handle_client`, with the bytes already read collected in
`raw` (the single `stream.read` of up to 8192 bytes), the external
`serde_json::from_str::<MCPRequest>` passed as `parse`, and the uuid as
`fresh`.  Returns the reply written back (none when zero bytes were read)
and the session store afterwards. -/
def handle_client (raw : String)
    (parse : String → Except String MCPRequest)
    (models : Models) (sessions : Sessions) (fresh : String) :
    Option HttpReply × Sessions :=
  if raw.data.isEmpty then (none, sessions)
  else if strStartsWith raw "POST" then
    match findBody raw with
    | some body =>
      match parse body with
      | .ok request =>
        let (response, sessions') := process_request request models sessions fresh
        (some (.json "200 OK" response), sessions')
      | .error e =>
        (some (.json "400 Bad Request" (parse_error_response e)), sessions)
    | none =>
      (some (.text "400 Bad Request" 19 "Missing request body"), sessions)
  else
    (some (.text "405 Method Not Allowed" 18 "Use POST requests"), sessions)

/-- The byte length `String::len()` used for the JSON Content-Length. -/
def byteLen (s : String) : Nat := s.utf8ByteSize

/-- Rendering of a reply into status, declared Content-Length and body,
given the external `serde_json::to_string` as `ser`.  For JSON replies the
code formats `Content-Length: {}` from `response_json.len()` of the very
string it then writes; for the fixed text replies the literal is used. -/
def renderReply (ser : MCPResponse → String) : HttpReply → String × Nat × String
  | .json status envelope => (status, byteLen (ser envelope), ser envelope)
  | .text status contentLength body => (status, contentLength, body)

/-- Serde serialization of the response struct at the field level: all
three fields are always emitted, `error: None` as JSON null. -/
def serializeFields (r : MCPResponse) : List (String × Value) :=
  [("id", .str r.id),
   ("result", r.result),
   ("error", match r.error with
             | some e => .obj [("code", .num e.code), ("message", .str e.message)]
             | none => .null)]

/-- The example handler registered in `main`:
`Ok(format!("Response to: {}. This is turn #{} in the conversation.",
prompt, context.len() / 2 + 1))`. -/
def example_model_handler : Handler := fun prompt context =>
  .ok ("Response to: " ++ prompt ++ ". This is turn #" ++
       toString (context.length / 2 + 1) ++ " in the conversation.")

/-- The registry set up in `main`: just `example-model`. -/
def exampleModels : Models := [("example-model", example_model_handler)]

/-! ### Helper lemmas on the session store -/

theorem insert_apply_self (m : Sessions) (k : String) (v : Session) :
    m.insert k v k = some v := by
  simp [Sessions.insert]

theorem insert_apply_ne (m : Sessions) (k k' : String) (v : Session) (h : k' ≠ k) :
    m.insert k v k' = m k' := by
  simp [Sessions.insert, h]

theorem remove_apply_self (m : Sessions) (k : String) :
    m.remove k k = none := by
  simp [Sessions.remove]

theorem remove_apply_ne (m : Sessions) (k k' : String) (h : k' ≠ k) :
    m.remove k k' = m k' := by
  simp [Sessions.remove, h]

/-! ### Equation lemmas, one per arm of the dispatcher -/

theorem pr_create_missing (req : MCPRequest) (models : Models) (sessions : Sessions)
    (fresh : String) (hm : req.method = "session.create")
    (hg : getString req.params "model" = none) :
    process_request req models sessions fresh =
      (error_response req.id (-32602) "Invalid params: missing model", sessions) := by
  unfold process_request
  rw [hm, if_pos rfl, hg]

theorem pr_create_unknown_model (req : MCPRequest) (models : Models) (sessions : Sessions)
    (fresh : String) (model : String) (hm : req.method = "session.create")
    (hg : getString req.params "model" = some model)
    (hl : models.lookup model = none) :
    process_request req models sessions fresh =
      (error_response req.id (-32602) ("Model not found: " ++ model), sessions) := by
  unfold process_request
  rw [hm, if_pos rfl, hg]
  simp [hl]

theorem pr_create_ok (req : MCPRequest) (models : Models) (sessions : Sessions)
    (fresh : String) (model : String) (hm : req.method = "session.create")
    (hg : getString req.params "model" = some model)
    (hl : (models.lookup model).isSome) :
    process_request req models sessions fresh =
      ({ id := req.id, result := .obj [("session_id", .str fresh)], error := none },
       sessions.insert fresh { model := model, context := [] }) := by
  unfold process_request
  rw [hm, if_pos rfl, hg]
  simp [hl]

theorem pr_gen_missing_sid (req : MCPRequest) (models : Models) (sessions : Sessions)
    (fresh : String) (hm : req.method = "session.generate")
    (hg : getString req.params "session_id" = none) :
    process_request req models sessions fresh =
      (error_response req.id (-32602) "Invalid params: missing session_id", sessions) := by
  unfold process_request
  rw [hm, if_neg (by decide), if_pos rfl]
  simp only [hg]

theorem pr_gen_missing_prompt (req : MCPRequest) (models : Models) (sessions : Sessions)
    (fresh : String) (sid : String) (hm : req.method = "session.generate")
    (hg : getString req.params "session_id" = some sid)
    (hp : getString req.params "prompt" = none) :
    process_request req models sessions fresh =
      (error_response req.id (-32602) "Invalid params: missing prompt", sessions) := by
  unfold process_request
  rw [hm, if_neg (by decide), if_pos rfl]
  simp only [hg, hp]

theorem pr_gen_no_session (req : MCPRequest) (models : Models) (sessions : Sessions)
    (fresh : String) (sid P : String) (hm : req.method = "session.generate")
    (hg : getString req.params "session_id" = some sid)
    (hp : getString req.params "prompt" = some P)
    (hs : sessions sid = none) :
    process_request req models sessions fresh =
      (error_response req.id (-32602) ("Session not found: " ++ sid), sessions) := by
  unfold process_request
  rw [hm, if_neg (by decide), if_pos rfl]
  simp only [hg, hp, hs]

theorem pr_gen_no_handler (req : MCPRequest) (models : Models) (sessions : Sessions)
    (fresh : String) (sid P : String) (sess : Session)
    (hm : req.method = "session.generate")
    (hg : getString req.params "session_id" = some sid)
    (hp : getString req.params "prompt" = some P)
    (hs : sessions sid = some sess)
    (hl : models.lookup sess.model = none) :
    process_request req models sessions fresh =
      (error_response req.id (-32603) "Internal error: model handler not found", sessions) := by
  unfold process_request
  rw [hm, if_neg (by decide), if_pos rfl]
  simp only [hg, hp, hs, hl]

theorem pr_gen_handler_err (req : MCPRequest) (models : Models) (sessions : Sessions)
    (fresh : String) (sid P : String) (sess : Session) (h : Handler) (e : String)
    (hm : req.method = "session.generate")
    (hg : getString req.params "session_id" = some sid)
    (hp : getString req.params "prompt" = some P)
    (hs : sessions sid = some sess)
    (hl : models.lookup sess.model = some h)
    (hr : h P sess.context = .error e) :
    process_request req models sessions fresh =
      (error_response req.id (-32603) ("Model error: " ++ e), sessions) := by
  unfold process_request
  rw [hm, if_neg (by decide), if_pos rfl]
  simp only [hg, hp, hs, hl, hr]

theorem pr_gen_ok (req : MCPRequest) (models : Models) (sessions : Sessions)
    (fresh : String) (sid P : String) (sess : Session) (h : Handler) (r : String)
    (hm : req.method = "session.generate")
    (hg : getString req.params "session_id" = some sid)
    (hp : getString req.params "prompt" = some P)
    (hs : sessions sid = some sess)
    (hl : models.lookup sess.model = some h)
    (hr : h P sess.context = .ok r) :
    process_request req models sessions fresh =
      ({ id := req.id, result := .obj [("response", .str r)], error := none },
       sessions.insert sid
         { model := sess.model, context := sess.context ++ [P, r] }) := by
  unfold process_request
  rw [hm, if_neg (by decide), if_pos rfl]
  simp only [hg, hp, hs, hl, hr]

theorem pr_close_missing (req : MCPRequest) (models : Models) (sessions : Sessions)
    (fresh : String) (hm : req.method = "session.close")
    (hg : getString req.params "session_id" = none) :
    process_request req models sessions fresh =
      (error_response req.id (-32602) "Invalid params: missing session_id", sessions) := by
  unfold process_request
  rw [hm, if_neg (by decide), if_neg (by decide), if_pos rfl]
  simp only [hg]

theorem pr_close_not_found (req : MCPRequest) (models : Models) (sessions : Sessions)
    (fresh : String) (sid : String) (hm : req.method = "session.close")
    (hg : getString req.params "session_id" = some sid)
    (hs : sessions sid = none) :
    process_request req models sessions fresh =
      (error_response req.id (-32602) ("Session not found: " ++ sid), sessions) := by
  unfold process_request
  rw [hm, if_neg (by decide), if_neg (by decide), if_pos rfl]
  simp only [hg, hs]

theorem pr_close_ok (req : MCPRequest) (models : Models) (sessions : Sessions)
    (fresh : String) (sid : String) (sess : Session) (hm : req.method = "session.close")
    (hg : getString req.params "session_id" = some sid)
    (hs : sessions sid = some sess) :
    process_request req models sessions fresh =
      ({ id := req.id, result := .obj [("success", .bool true)], error := none },
       sessions.remove sid) := by
  unfold process_request
  rw [hm, if_neg (by decide), if_neg (by decide), if_pos rfl]
  simp only [hg, hs]

theorem pr_list (req : MCPRequest) (models : Models) (sessions : Sessions)
    (fresh : String) (hm : req.method = "models.list") :
    process_request req models sessions fresh =
      ({ id := req.id,
         result := .obj [("models", .arr (models.map (fun p => .str p.1)))],
         error := none },
       sessions) := by
  unfold process_request
  rw [hm, if_neg (by decide), if_neg (by decide), if_neg (by decide), if_pos rfl]

theorem pr_unknown (req : MCPRequest) (models : Models) (sessions : Sessions)
    (fresh : String)
    (h1 : req.method ≠ "session.create") (h2 : req.method ≠ "session.generate")
    (h3 : req.method ≠ "session.close") (h4 : req.method ≠ "models.list") :
    process_request req models sessions fresh =
      (error_response req.id (-32601) ("Method not found: " ++ req.method), sessions) := by
  unfold process_request
  rw [if_neg h1, if_neg h2, if_neg h3, if_neg h4]

/-- Exhaustive shape of a dispatcher outcome: the response id always
echoes the request id, and the response is either a success envelope (an
object result, no error) or an error envelope with one of the three
dispatcher codes. -/
theorem pr_shape (req : MCPRequest) (models : Models) (sessions : Sessions) (fresh : String) :
    (process_request req models sessions fresh).1.id = req.id ∧
    ((∃ fields, (process_request req models sessions fresh).1.result = .obj fields ∧
        (process_request req models sessions fresh).1.error = none) ∨
     (∃ code msg, (process_request req models sessions fresh).1 = error_response req.id code msg ∧
        (code = -32601 ∨ code = -32602 ∨ code = -32603))) := by
  by_cases h1 : req.method = "session.create"
  · rcases hg : getString req.params "model" with _ | model
    · rw [pr_create_missing req models sessions fresh h1 hg]
      exact ⟨rfl, .inr ⟨-32602, _, rfl, .inr (.inl rfl)⟩⟩
    · rcases hl : models.lookup model with _ | v
      · rw [pr_create_unknown_model req models sessions fresh model h1 hg hl]
        exact ⟨rfl, .inr ⟨-32602, _, rfl, .inr (.inl rfl)⟩⟩
      · rw [pr_create_ok req models sessions fresh model h1 hg (by rw [hl]; rfl)]
        exact ⟨rfl, .inl ⟨_, rfl, rfl⟩⟩
  · by_cases h2 : req.method = "session.generate"
    · rcases hg : getString req.params "session_id" with _ | sid
      · rw [pr_gen_missing_sid req models sessions fresh h2 hg]
        exact ⟨rfl, .inr ⟨-32602, _, rfl, .inr (.inl rfl)⟩⟩
      · rcases hp : getString req.params "prompt" with _ | P
        · rw [pr_gen_missing_prompt req models sessions fresh sid h2 hg hp]
          exact ⟨rfl, .inr ⟨-32602, _, rfl, .inr (.inl rfl)⟩⟩
        · rcases hs : sessions sid with _ | sess
          · rw [pr_gen_no_session req models sessions fresh sid P h2 hg hp hs]
            exact ⟨rfl, .inr ⟨-32602, _, rfl, .inr (.inl rfl)⟩⟩
          · rcases hl : models.lookup sess.model with _ | hdl
            · rw [pr_gen_no_handler req models sessions fresh sid P sess h2 hg hp hs hl]
              exact ⟨rfl, .inr ⟨-32603, _, rfl, .inr (.inr rfl)⟩⟩
            · rcases hres : hdl P sess.context with e | r
              · rw [pr_gen_handler_err req models sessions fresh sid P sess hdl e h2 hg hp hs hl hres]
                exact ⟨rfl, .inr ⟨-32603, _, rfl, .inr (.inr rfl)⟩⟩
              · rw [pr_gen_ok req models sessions fresh sid P sess hdl r h2 hg hp hs hl hres]
                exact ⟨rfl, .inl ⟨_, rfl, rfl⟩⟩
    · by_cases h3 : req.method = "session.close"
      · rcases hg : getString req.params "session_id" with _ | sid
        · rw [pr_close_missing req models sessions fresh h3 hg]
          exact ⟨rfl, .inr ⟨-32602, _, rfl, .inr (.inl rfl)⟩⟩
        · rcases hs : sessions sid with _ | sess
          · rw [pr_close_not_found req models sessions fresh sid h3 hg hs]
            exact ⟨rfl, .inr ⟨-32602, _, rfl, .inr (.inl rfl)⟩⟩
          · rw [pr_close_ok req models sessions fresh sid sess h3 hg hs]
            exact ⟨rfl, .inl ⟨_, rfl, rfl⟩⟩
      · by_cases h4 : req.method = "models.list"
        · rw [pr_list req models sessions fresh h4]
          exact ⟨rfl, .inl ⟨_, rfl, rfl⟩⟩
        · rw [pr_unknown req models sessions fresh h1 h2 h3 h4]
          exact ⟨rfl, .inr ⟨-32601, _, rfl, .inl rfl⟩⟩

/-- Equation lemma for the framing layer: a POST request whose body fails
to decode is answered with the 400 JSON envelope built from the parse
error, and the store is untouched. -/
theorem hc_parse_error (raw body e : String)
    (parse : String → Except String MCPRequest)
    (models : Models) (sessions : Sessions) (fresh : String)
    (h0 : raw.data.isEmpty = false)
    (h1 : strStartsWith raw "POST" = true)
    (h2 : findBody raw = some body)
    (h3 : parse body = .error e) :
    handle_client raw parse models sessions fresh =
      (some (.json "400 Bad Request" (parse_error_response e)), sessions) := by
  unfold handle_client
  rw [h0, h1, h2]
  simp [h3]

/-- Equation lemma for the framing layer: a POST request whose body
decodes is dispatched, answered with the 200 JSON envelope, and the store
becomes the dispatched store. -/
theorem hc_parse_ok (raw body : String) (req : MCPRequest)
    (parse : String → Except String MCPRequest)
    (models : Models) (sessions : Sessions) (fresh : String)
    (h0 : raw.data.isEmpty = false)
    (h1 : strStartsWith raw "POST" = true)
    (h2 : findBody raw = some body)
    (h3 : parse body = .ok req) :
    handle_client raw parse models sessions fresh =
      (some (.json "200 OK" (process_request req models sessions fresh).1),
       (process_request req models sessions fresh).2) := by
  unfold handle_client
  rw [h0, h1, h2]
  rcases hpr : process_request req models sessions fresh with ⟨resp, s2⟩
  simp [h3, hpr]

/-! ### Concrete fixtures for the witnesses -/

/-- A generate request with the given session id and prompt. -/
def genReq (sid P : String) : MCPRequest :=
  { id := "rid", method := "session.generate",
    params := .obj [("session_id", .str sid), ("prompt", .str P)] }

/-- A close request with the given session id. -/
def closeReq (sid : String) : MCPRequest :=
  { id := "rid", method := "session.close", params := .obj [("session_id", .str sid)] }

/-- A create request with the given model name. -/
def createReq (model : String) : MCPRequest :=
  { id := "rid", method := "session.create", params := .obj [("model", .str model)] }

/-- A store holding one freshly created example-model session. -/
def store1 : Sessions :=
  emptySessions.insert "sid-1" { model := "example-model", context := [] }

/-- A handler that always fails (the handler type is fallible; the
registered example handler never exercises the Err arm). -/
def failing_handler : Handler := fun _ _ => .error "boom"

/-- A registry holding the failing handler. -/
def failModels : Models := [("fail-model", failing_handler)]

/-- A store holding one session bound to the failing handler. -/
def storeFail : Sessions :=
  emptySessions.insert "sid-f" { model := "fail-model", context := [] }

/-- A models.list request. -/
def listReq : MCPRequest := { id := "r9", method := "models.list", params := .null }

/-- A request with an unrecognized method name. -/
def badReq : MCPRequest := { id := "rb", method := "bogus", params := .null }

/-- A decoder that always succeeds with the models.list request. -/
def okParse : String → Except String MCPRequest := fun _ => .ok listReq

/-- A decoder that always fails, standing in for serde on a malformed body. -/
def failParse : String → Except String MCPRequest := fun _ => .error "syntax"

/-- The invariant that every stored session has a context of even length. -/
def EvenContexts (s : Sessions) : Prop :=
  ∀ k sess, s k = some sess → Even sess.context.length

/-- The session id carried in a create success result, if any. -/
def returnedSessionId (r : MCPResponse) : Option String :=
  match r.result.get "session_id" with
  | some (.str s) => some s
  | _ => none

/-- Run one session.create per element of `ids`, feeding each element as
the freshly generated uuid of its call; returns the final store and the
list of returned session ids. -/
def runCreates (models : Models) (model : String) (ids : List String)
    (sessions : Sessions) : Sessions × List (Option String) :=
  match ids with
  | [] => (sessions, [])
  | i :: rest =>
    let step := process_request (createReq model) models sessions i
    let next := runCreates models model rest step.2
    (next.1, returnedSessionId step.1 :: next.2)

/-- Induction workhorse for runCreates: with a registered model and
pairwise-distinct fresh ids, every call succeeds returning its fresh id,
keys outside `ids` keep their old value, and each id ends bound to an
empty-context session. -/
theorem runCreates_spec (models : Models) (model : String)
    (hm : (models.lookup model).isSome) (ids : List String) :
    ∀ sessions : Sessions, ids.Nodup →
      (runCreates models model ids sessions).2 = ids.map some ∧
      (∀ k, k ∉ ids → (runCreates models model ids sessions).1 k = sessions k) ∧
      (∀ i ∈ ids, (runCreates models model ids sessions).1 i =
        some { model := model, context := [] }) := by
  induction ids with
  | nil =>
    intro sessions _
    exact ⟨rfl, fun k _ => rfl, fun i hi => absurd hi (List.not_mem_nil i)⟩
  | cons i rest ih =>
    intro sessions hnd
    have hstep : process_request (createReq model) models sessions i =
        ({ id := (createReq model).id,
           result := .obj [("session_id", .str i)], error := none },
         sessions.insert i { model := model, context := [] }) :=
      pr_create_ok (createReq model) models sessions i model rfl rfl hm
    have hni : i ∉ rest := (List.nodup_cons.mp hnd).1
    have ihx := ih (sessions.insert i { model := model, context := [] })
      (List.nodup_cons.mp hnd).2
    have hrun : runCreates models model (i :: rest) sessions =
        ((runCreates models model rest
            (sessions.insert i { model := model, context := [] })).1,
         some i :: (runCreates models model rest
            (sessions.insert i { model := model, context := [] })).2) := by
      simp only [runCreates]
      rw [hstep]
      rfl
    refine ⟨?_, ?_, ?_⟩
    · rw [hrun]
      show some i :: _ = _
      rw [ihx.1]
      rfl
    · intro k hk
      have hki : k ≠ i := fun hcon => hk (hcon ▸ List.mem_cons_self i rest)
      have hkr : k ∉ rest := fun hcon => hk (List.mem_cons_of_mem i hcon)
      rw [hrun]
      show (runCreates models model rest _).1 k = sessions k
      rw [ihx.2.1 k hkr, insert_apply_ne _ _ _ _ hki]
    · intro j hj
      rcases List.mem_cons.mp hj with hji | hjr
      · rw [hrun]
        show (runCreates models model rest _).1 j = _
        rw [hji, ihx.2.1 i hni, insert_apply_self]
      · rw [hrun]
        show (runCreates models model rest _).1 j = _
        exact ihx.2.2 j hjr

/-! ### Claim theorems -/

/-- C1: for every session in the store and every successful
session.generate call with prompt P, the handler is invoked with P and the
context as it stood before the call (hypothesis `hr`), the response
envelope carries the handler result, and afterwards the context equals the
old context with exactly the prompt and the response appended, so it grows
by exactly 2 per successful call. -/
theorem c1_generate_appends_prompt_then_response
    (req : MCPRequest) (models : Models) (sessions : Sessions) (fresh : String)
    (sid P : String) (sess : Session) (h : Handler) (r : String)
    (hm : req.method = "session.generate")
    (hg : getString req.params "session_id" = some sid)
    (hp : getString req.params "prompt" = some P)
    (hs : sessions sid = some sess)
    (hl : models.lookup sess.model = some h)
    (hr : h P sess.context = .ok r) :
    (process_request req models sessions fresh).1 =
      { id := req.id, result := .obj [("response", .str r)], error := none } ∧
    (process_request req models sessions fresh).2 sid =
      some { model := sess.model, context := sess.context ++ [P, r] } ∧
    (∀ s', (process_request req models sessions fresh).2 sid = some s' →
      s'.context.length = sess.context.length + 2) := by
  rw [pr_gen_ok req models sessions fresh sid P sess h r hm hg hp hs hl hr]
  refine ⟨rfl, insert_apply_self _ _ _, ?_⟩
  intro s' hs'
  replace hs' :
      (sessions.insert sid { model := sess.model, context := sess.context ++ [P, r] }) sid =
        some s' := hs'
  rw [insert_apply_self] at hs'
  injection hs' with h2
  rw [← h2]
  simp

/-- C1 witness: a generate on a freshly created session yields context
exactly the prompt followed by the response. -/
theorem c1_witness :
    store1 "sid-1" = some { model := "example-model", context := [] } ∧
    (process_request (genReq "sid-1" "hi") exampleModels store1 "f").2 "sid-1" =
      some { model := "example-model",
             context := ["hi", "Response to: hi. This is turn #1 in the conversation."] } :=
  ⟨rfl,
   (c1_generate_appends_prompt_then_response (genReq "sid-1" "hi") exampleModels store1 "f"
      "sid-1" "hi" { model := "example-model", context := [] } example_model_handler
      "Response to: hi. This is turn #1 in the conversation."
      rfl rfl rfl rfl rfl rfl).2.1⟩

/-- C2: when the handler fails, the dispatcher returns an internal error
(code -32603) whose message carries the handler message, and the session
store is completely unchanged. -/
theorem c2_generate_failure_leaves_store_unchanged
    (req : MCPRequest) (models : Models) (sessions : Sessions) (fresh : String)
    (sid P : String) (sess : Session) (h : Handler) (e : String)
    (hm : req.method = "session.generate")
    (hg : getString req.params "session_id" = some sid)
    (hp : getString req.params "prompt" = some P)
    (hs : sessions sid = some sess)
    (hl : models.lookup sess.model = some h)
    (hr : h P sess.context = .error e) :
    (process_request req models sessions fresh).1.error =
      some { code := -32603, message := "Model error: " ++ e } ∧
    (process_request req models sessions fresh).2 = sessions := by
  rw [pr_gen_handler_err req models sessions fresh sid P sess h e hm hg hp hs hl hr]
  exact ⟨rfl, rfl⟩

/-- C2 witness: a failing handler produces the internal error and the
store is untouched. -/
theorem c2_witness :
    storeFail "sid-f" = some { model := "fail-model", context := [] } ∧
    failing_handler "hi" [] = .error "boom" ∧
    (process_request (genReq "sid-f" "hi") failModels storeFail "f").1.error =
      some { code := -32603, message := "Model error: boom" } ∧
    (process_request (genReq "sid-f" "hi") failModels storeFail "f").2 = storeFail :=
  ⟨rfl, rfl,
   (c2_generate_failure_leaves_store_unchanged (genReq "sid-f" "hi") failModels storeFail "f"
      "sid-f" "hi" { model := "fail-model", context := [] } failing_handler "boom"
      rfl rfl rfl rfl rfl rfl).1,
   (c2_generate_failure_leaves_store_unchanged (genReq "sid-f" "hi") failModels storeFail "f"
      "sid-f" "hi" { model := "fail-model", context := [] } failing_handler "boom"
      rfl rfl rfl rfl rfl rfl).2⟩

/-- C3: a successful session.close removes the session, and on a store
where the id is absent any further session.generate or session.close
naming that id returns an invalid-params error, code -32602 (in
particular never -32603). -/
theorem c3_close_then_use_yields_invalid_params
    (models : Models) (sessions : Sessions) (fresh : String) (S : String) :
    (∀ req sess, req.method = "session.close" →
        getString req.params "session_id" = some S → sessions S = some sess →
        (process_request req models sessions fresh).2 S = none) ∧
    (∀ req, sessions S = none →
        (req.method = "session.generate" ∨ req.method = "session.close") →
        getString req.params "session_id" = some S →
        ∃ msg, (process_request req models sessions fresh).1.error =
          some { code := -32602, message := msg }) := by
  constructor
  · intro req sess hm hg hs
    rw [pr_close_ok req models sessions fresh S sess hm hg hs]
    exact remove_apply_self _ _
  · intro req hS hmeth hg
    rcases hmeth with hm | hm
    · rcases hp : getString req.params "prompt" with _ | P
      · rw [pr_gen_missing_prompt req models sessions fresh S hm hg hp]
        exact ⟨_, rfl⟩
      · rw [pr_gen_no_session req models sessions fresh S P hm hg hp hS]
        exact ⟨_, rfl⟩
    · rw [pr_close_not_found req models sessions fresh S hm hg hS]
      exact ⟨_, rfl⟩

/-- C3 witness: closing the one session of the store then generating on
its id yields code -32602. -/
theorem c3_witness :
    (process_request (closeReq "sid-1") exampleModels store1 "f").2 "sid-1" = none ∧
    (∃ msg,
      (process_request (genReq "sid-1" "hi") exampleModels
          (process_request (closeReq "sid-1") exampleModels store1 "f").2 "f2").1.error =
        some { code := -32602, message := msg }) := by
  have h1 := (c3_close_then_use_yields_invalid_params exampleModels store1 "f" "sid-1").1
      (closeReq "sid-1") { model := "example-model", context := [] } rfl rfl rfl
  refine ⟨h1, ?_⟩
  exact (c3_close_then_use_yields_invalid_params exampleModels
      (process_request (closeReq "sid-1") exampleModels store1 "f").2 "f2" "sid-1").2
      (genReq "sid-1" "hi") h1 (Or.inl rfl) rfl

/-- C5: session.create with a registered string model parameter stores a
new session with that model and an empty context under the freshly
generated id and returns its id; a missing or non-string model, or an
unregistered model, yields code -32602 and stores nothing. -/
theorem c5_create_behavior
    (req : MCPRequest) (models : Models) (sessions : Sessions) (fresh : String) :
    (∀ model, req.method = "session.create" →
        getString req.params "model" = some model →
        (models.lookup model).isSome →
        (process_request req models sessions fresh).1 =
          { id := req.id, result := .obj [("session_id", .str fresh)], error := none } ∧
        (process_request req models sessions fresh).2 fresh =
          some { model := model, context := [] }) ∧
    (∀ model, req.method = "session.create" →
        getString req.params "model" = some model →
        models.lookup model = none →
        (process_request req models sessions fresh).1.error =
          some { code := -32602, message := "Model not found: " ++ model } ∧
        (process_request req models sessions fresh).2 = sessions) ∧
    (req.method = "session.create" →
        getString req.params "model" = none →
        (process_request req models sessions fresh).1.error =
          some { code := -32602, message := "Invalid params: missing model" } ∧
        (process_request req models sessions fresh).2 = sessions) := by
  refine ⟨?_, ?_, ?_⟩
  · intro model hm hg hl
    rw [pr_create_ok req models sessions fresh model hm hg hl]
    exact ⟨rfl, insert_apply_self _ _ _⟩
  · intro model hm hg hl
    rw [pr_create_unknown_model req models sessions fresh model hm hg hl]
    exact ⟨rfl, rfl⟩
  · intro hm hg
    rw [pr_create_missing req models sessions fresh hm hg]
    exact ⟨rfl, rfl⟩

/-- C4: the error-code taxonomy.  An unrecognized method yields -32601; a
missing or non-string parameter, an unknown model on create, and an
unknown session on generate/close yield -32602; a handler-lookup miss and
a handler failure yield -32603; no dispatcher outcome carries any other
code; and a body that fails to decode is answered with the -32700
envelope whose id is the sentinel string. -/
theorem c4_error_code_taxonomy
    (models : Models) (sessions : Sessions) (fresh : String) :
    (∀ req err, (process_request req models sessions fresh).1.error = some err →
        err.code = -32601 ∨ err.code = -32602 ∨ err.code = -32603) ∧
    (∀ req, req.method ≠ "session.create" → req.method ≠ "session.generate" →
        req.method ≠ "session.close" → req.method ≠ "models.list" →
        (process_request req models sessions fresh).1.error =
          some { code := -32601, message := "Method not found: " ++ req.method }) ∧
    (∀ req, req.method = "session.create" → getString req.params "model" = none →
        (process_request req models sessions fresh).1.error =
          some { code := -32602, message := "Invalid params: missing model" }) ∧
    (∀ req model, req.method = "session.create" →
        getString req.params "model" = some model → models.lookup model = none →
        (process_request req models sessions fresh).1.error =
          some { code := -32602, message := "Model not found: " ++ model }) ∧
    (∀ req, req.method = "session.generate" →
        getString req.params "session_id" = none →
        (process_request req models sessions fresh).1.error =
          some { code := -32602, message := "Invalid params: missing session_id" }) ∧
    (∀ req sid, req.method = "session.generate" →
        getString req.params "session_id" = some sid →
        getString req.params "prompt" = none →
        (process_request req models sessions fresh).1.error =
          some { code := -32602, message := "Invalid params: missing prompt" }) ∧
    (∀ req sid P, req.method = "session.generate" →
        getString req.params "session_id" = some sid →
        getString req.params "prompt" = some P → sessions sid = none →
        (process_request req models sessions fresh).1.error =
          some { code := -32602, message := "Session not found: " ++ sid }) ∧
    (∀ req sid P sess, req.method = "session.generate" →
        getString req.params "session_id" = some sid →
        getString req.params "prompt" = some P → sessions sid = some sess →
        models.lookup sess.model = none →
        (process_request req models sessions fresh).1.error =
          some { code := -32603, message := "Internal error: model handler not found" }) ∧
    (∀ req sid P sess h e, req.method = "session.generate" →
        getString req.params "session_id" = some sid →
        getString req.params "prompt" = some P → sessions sid = some sess →
        models.lookup sess.model = some h → h P sess.context = .error e →
        (process_request req models sessions fresh).1.error =
          some { code := -32603, message := "Model error: " ++ e }) ∧
    (∀ req, req.method = "session.close" →
        getString req.params "session_id" = none →
        (process_request req models sessions fresh).1.error =
          some { code := -32602, message := "Invalid params: missing session_id" }) ∧
    (∀ req sid, req.method = "session.close" →
        getString req.params "session_id" = some sid → sessions sid = none →
        (process_request req models sessions fresh).1.error =
          some { code := -32602, message := "Session not found: " ++ sid }) ∧
    (∀ raw body e parse, raw.data.isEmpty = false →
        strStartsWith raw "POST" = true → findBody raw = some body →
        parse body = .error e →
        (handle_client raw parse models sessions fresh).1 =
          some (.json "400 Bad Request" (parse_error_response e)) ∧
        (parse_error_response e).id = "error" ∧
        (parse_error_response e).error =
          some { code := -32700, message := "Parse error: " ++ e }) := by
  refine ⟨?_, ?_, ?_, ?_, ?_, ?_, ?_, ?_, ?_, ?_, ?_, ?_⟩
  · intro req err he
    rcases (pr_shape req models sessions fresh).2 with ⟨fields, _, hnone⟩ | ⟨code, msg, heq, hc⟩
    · rw [hnone] at he
      exact Option.noConfusion he
    · rw [heq] at he
      simp only [error_response] at he
      injection he with h2
      rw [← h2]
      exact hc
  · intro req h1 h2 h3 h4
    rw [pr_unknown req models sessions fresh h1 h2 h3 h4]
    rfl
  · intro req hm hg
    rw [pr_create_missing req models sessions fresh hm hg]
    rfl
  · intro req model hm hg hl
    rw [pr_create_unknown_model req models sessions fresh model hm hg hl]
    rfl
  · intro req hm hg
    rw [pr_gen_missing_sid req models sessions fresh hm hg]
    rfl
  · intro req sid hm hg hp
    rw [pr_gen_missing_prompt req models sessions fresh sid hm hg hp]
    rfl
  · intro req sid P hm hg hp hs
    rw [pr_gen_no_session req models sessions fresh sid P hm hg hp hs]
    rfl
  · intro req sid P sess hm hg hp hs hl
    rw [pr_gen_no_handler req models sessions fresh sid P sess hm hg hp hs hl]
    rfl
  · intro req sid P sess h e hm hg hp hs hl hr
    rw [pr_gen_handler_err req models sessions fresh sid P sess h e hm hg hp hs hl hr]
    rfl
  · intro req hm hg
    rw [pr_close_missing req models sessions fresh hm hg]
    rfl
  · intro req sid hm hg hs
    rw [pr_close_not_found req models sessions fresh sid hm hg hs]
    rfl
  · intro raw body e parse h0 h1 h2 h3
    rw [hc_parse_error raw body e parse models sessions fresh h0 h1 h2 h3]
    exact ⟨rfl, rfl, rfl⟩

/-- C4 witness: an unrecognized method name is answered with error code
-32601, and a malformed body with the -32700 sentinel envelope. -/
theorem c4_witness :
    (process_request badReq exampleModels emptySessions "f").1.error =
      some { code := -32601, message := "Method not found: bogus" } ∧
    (handle_client "POST /\r\n\r\nnotjson" failParse exampleModels emptySessions "f").1 =
      some (.json "400 Bad Request" (parse_error_response "syntax")) :=
  ⟨(c4_error_code_taxonomy exampleModels emptySessions "f").2.1 badReq
      (by decide) (by decide) (by decide) (by decide),
   ((c4_error_code_taxonomy exampleModels emptySessions "f").2.2.2.2.2.2.2.2.2.2.2
      "POST /\r\n\r\nnotjson" "notjson" "syntax" failParse rfl rfl rfl rfl).1⟩

/-- C6: every dispatcher operation preserves the invariant that each
stored session has a context of even length. -/
theorem c6_context_length_even_preserved
    (req : MCPRequest) (models : Models) (sessions : Sessions) (fresh : String)
    (hinv : EvenContexts sessions) :
    EvenContexts (process_request req models sessions fresh).2 := by
  by_cases h1 : req.method = "session.create"
  · rcases hg : getString req.params "model" with _ | model
    · rw [pr_create_missing req models sessions fresh h1 hg]
      exact hinv
    · rcases hl : models.lookup model with _ | v
      · rw [pr_create_unknown_model req models sessions fresh model h1 hg hl]
        exact hinv
      · rw [pr_create_ok req models sessions fresh model h1 hg (by rw [hl]; rfl)]
        intro k sess hk
        replace hk :
            (Sessions.insert sessions fresh { model := model, context := [] }) k =
              some sess := hk
        by_cases hkf : k = fresh
        · rw [hkf, insert_apply_self] at hk
          injection hk with h2
          rw [← h2]
          exact ⟨0, rfl⟩
        · rw [insert_apply_ne _ _ _ _ hkf] at hk
          exact hinv k sess hk
  · by_cases h2 : req.method = "session.generate"
    · rcases hg : getString req.params "session_id" with _ | sid
      · rw [pr_gen_missing_sid req models sessions fresh h2 hg]
        exact hinv
      · rcases hp : getString req.params "prompt" with _ | P
        · rw [pr_gen_missing_prompt req models sessions fresh sid h2 hg hp]
          exact hinv
        · rcases hs : sessions sid with _ | sess
          · rw [pr_gen_no_session req models sessions fresh sid P h2 hg hp hs]
            exact hinv
          · rcases hl : models.lookup sess.model with _ | hdl
            · rw [pr_gen_no_handler req models sessions fresh sid P sess h2 hg hp hs hl]
              exact hinv
            · rcases hres : hdl P sess.context with e | r
              · rw [pr_gen_handler_err req models sessions fresh sid P sess hdl e
                    h2 hg hp hs hl hres]
                exact hinv
              · rw [pr_gen_ok req models sessions fresh sid P sess hdl r h2 hg hp hs hl hres]
                intro k sess2 hk
                replace hk :
                    (Sessions.insert sessions sid
                      { model := sess.model,
                        context := sess.context ++ [P, r] }) k = some sess2 := hk
                by_cases hks : k = sid
                · rw [hks, insert_apply_self] at hk
                  injection hk with h2
                  rw [← h2]
                  show Even (sess.context ++ [P, r]).length
                  rw [List.length_append]
                  exact (hinv sid sess hs).add ⟨1, rfl⟩
                · rw [insert_apply_ne _ _ _ _ hks] at hk
                  exact hinv k sess2 hk
    · by_cases h3 : req.method = "session.close"
      · rcases hg : getString req.params "session_id" with _ | sid
        · rw [pr_close_missing req models sessions fresh h3 hg]
          exact hinv
        · rcases hs : sessions sid with _ | sess
          · rw [pr_close_not_found req models sessions fresh sid h3 hg hs]
            exact hinv
          · rw [pr_close_ok req models sessions fresh sid sess h3 hg hs]
            intro k sess2 hk
            replace hk : (Sessions.remove sessions sid) k = some sess2 := hk
            by_cases hks : k = sid
            · rw [hks, remove_apply_self] at hk
              exact Option.noConfusion hk
            · rw [remove_apply_ne _ _ _ hks] at hk
              exact hinv k sess2 hk
      · by_cases h4 : req.method = "models.list"
        · rw [pr_list req models sessions fresh h4]
          exact hinv
        · rw [pr_unknown req models sessions fresh h1 h2 h3 h4]
          exact hinv

/-- C6 witness: the invariant holds of the one-session store and is kept
by a generate call on it. -/
theorem c6_witness :
    EvenContexts (process_request (genReq "sid-1" "hi") exampleModels store1 "f").2 := by
  have h0 : EvenContexts store1 := by
    intro k sess hk
    replace hk :
        (Sessions.insert emptySessions "sid-1"
          { model := "example-model", context := [] }) k = some sess := hk
    by_cases h : k = "sid-1"
    · rw [h, insert_apply_self] at hk
      injection hk with h2
      rw [← h2]
      exact ⟨0, rfl⟩
    · rw [insert_apply_ne _ _ _ _ h] at hk
      exact Option.noConfusion hk
  exact c6_context_length_even_preserved (genReq "sid-1" "hi") exampleModels store1 "f" h0

/-- C7: the claim fails on the code.  The two fixed plain-text rejections
declare Content-Length 18 and 19, but their bodies are 17 bytes (Use POST
requests) and 20 bytes (Missing request body); only the JSON replies
compute the header from the byte length of the body they write. -/
theorem c7_fixed_text_content_length_mismatch :
    (handle_client "GET / HTTP/1.1\r\n\r\n" failParse exampleModels emptySessions "f").1 =
      some (.text "405 Method Not Allowed" 18 "Use POST requests") ∧
    byteLen "Use POST requests" = 17 ∧
    (handle_client "POST / HTTP/1.1\r\nHost: h" failParse exampleModels emptySessions "f").1 =
      some (.text "400 Bad Request" 19 "Missing request body") ∧
    byteLen "Missing request body" = 20 ∧
    (18 : Nat) ≠ 17 ∧ (19 : Nat) ≠ 20 ∧
    (∀ ser status envelope,
      renderReply ser (.json status envelope) =
        (status, byteLen (ser envelope), ser envelope)) :=
  ⟨rfl, by decide, rfl, by decide, by decide, by decide, fun _ _ _ => rfl⟩

/-- C8: the response envelope always carries all three fields with id
echoing the request id, exactly one of result/error is meaningful (the
other is null), and the decode-failure envelope uses the sentinel id. -/
theorem c8_envelope_shape (models : Models) (sessions : Sessions) (fresh : String) :
    (∀ req, (process_request req models sessions fresh).1.id = req.id) ∧
    (∀ req, ((process_request req models sessions fresh).1.error = none ∧
             (process_request req models sessions fresh).1.result ≠ .null) ∨
            ((process_request req models sessions fresh).1.result = .null ∧
             ∃ err, (process_request req models sessions fresh).1.error = some err)) ∧
    (∀ r, (serializeFields r).map Prod.fst = ["id", "result", "error"]) ∧
    (∀ r, r.error = none →
      serializeFields r = [("id", .str r.id), ("result", r.result), ("error", .null)]) ∧
    (∀ r err, r.error = some err →
      serializeFields r = [("id", .str r.id), ("result", r.result),
        ("error", .obj [("code", .num err.code), ("message", .str err.message)])]) ∧
    (∀ e, (parse_error_response e).id = "error" ∧
          (parse_error_response e).result = .null ∧
          (parse_error_response e).error =
            some { code := -32700, message := "Parse error: " ++ e }) ∧
    (∀ raw body req parse, raw.data.isEmpty = false →
        strStartsWith raw "POST" = true → findBody raw = some body →
        parse body = .ok req →
        ∃ env, (handle_client raw parse models sessions fresh).1 =
          some (.json "200 OK" env) ∧ env.id = req.id) := by
  refine ⟨?_, ?_, ?_, ?_, ?_, ?_, ?_⟩
  · intro req
    exact (pr_shape req models sessions fresh).1
  · intro req
    rcases (pr_shape req models sessions fresh).2 with ⟨fields, hobj, hnone⟩ |
      ⟨code, msg, heq, _⟩
    · refine .inl ⟨hnone, ?_⟩
      rw [hobj]
      exact fun hcon => Value.noConfusion hcon
    · refine .inr ⟨?_, ⟨{ code := code, message := msg }, ?_⟩⟩
      · rw [heq]
        rfl
      · rw [heq]
        rfl
  · intro r
    rfl
  · intro r hr
    simp only [serializeFields, hr]
  · intro r err hr
    simp only [serializeFields, hr]
  · intro e
    exact ⟨rfl, rfl, rfl⟩
  · intro raw body req parse h0 h1 h2 h3
    refine ⟨(process_request req models sessions fresh).1, ?_, ?_⟩
    · rw [hc_parse_ok raw body req parse models sessions fresh h0 h1 h2 h3]
    · exact (pr_shape req models sessions fresh).1

/-- C8 witness: a parsed models.list request is answered with a 200 JSON
envelope echoing the request id. -/
theorem c8_witness :
    ∃ env, (handle_client "POST /\r\n\r\n{}" okParse exampleModels emptySessions "f").1 =
      some (.json "200 OK" env) ∧ env.id = "r9" :=
  (c8_envelope_shape exampleModels emptySessions "f").2.2.2.2.2.2
    "POST /\r\n\r\n{}" "{}" listReq okParse rfl rfl rfl rfl

/-- C9: with the uuid generator modelled as a stream of pairwise-distinct
fresh identifiers, a sequence of successful session.create calls returns
pairwise-distinct session ids, never displaces any existing session, and
ends with each new id bound to its own empty-context session. -/
theorem c9_created_ids_pairwise_distinct
    (models : Models) (model : String) (ids : List String) (sessions : Sessions)
    (hm : (models.lookup model).isSome)
    (hnd : ids.Nodup)
    (hfresh : ∀ i ∈ ids, sessions i = none) :
    (runCreates models model ids sessions).2 = ids.map some ∧
    (runCreates models model ids sessions).2.Nodup ∧
    (∀ k sess, sessions k = some sess →
      (runCreates models model ids sessions).1 k = some sess) ∧
    (∀ i ∈ ids, (runCreates models model ids sessions).1 i =
      some { model := model, context := [] }) := by
  obtain ⟨h1, h2, h3⟩ := runCreates_spec models model hm ids sessions hnd
  refine ⟨h1, ?_, ?_, h3⟩
  · rw [h1]
    exact hnd.map (Option.some_injective String)
  · intro k sess hk
    have hkni : k ∉ ids := fun hmem => by
      rw [hfresh k hmem] at hk
      exact Option.noConfusion hk
    rw [h2 k hkni]
    exact hk

/-- C9 witness: two creates with fresh uuids a and b return exactly a then
b and both sessions are present at the end. -/
theorem c9_witness :
    (runCreates exampleModels "example-model" ["a", "b"] emptySessions).2 =
      [some "a", some "b"] ∧
    (runCreates exampleModels "example-model" ["a", "b"] emptySessions).1 "a" =
      some { model := "example-model", context := [] } :=
  ⟨(c9_created_ids_pairwise_distinct exampleModels "example-model" ["a", "b"]
      emptySessions rfl (by decide) (fun _ _ => rfl)).1,
   (c9_created_ids_pairwise_distinct exampleModels "example-model" ["a", "b"]
      emptySessions rfl (by decide) (fun _ _ => rfl)).2.2.2 "a" (by decide)⟩

/-- C10: frame effects.  models.list, unrecognized methods and
param-rejected requests leave the store unchanged; create touches only the
fresh id and close only the named id; in general a key can change only if
it is the fresh uuid or the session_id named by the request. -/
theorem c10_frame_effects (models : Models) (sessions : Sessions) (fresh : String) :
    (∀ req, req.method = "models.list" →
        (process_request req models sessions fresh).2 = sessions) ∧
    (∀ req, req.method ≠ "session.create" → req.method ≠ "session.generate" →
        req.method ≠ "session.close" → req.method ≠ "models.list" →
        (process_request req models sessions fresh).2 = sessions) ∧
    (∀ req, req.method = "session.create" → getString req.params "model" = none →
        (process_request req models sessions fresh).2 = sessions) ∧
    (∀ req, req.method = "session.generate" →
        getString req.params "session_id" = none →
        (process_request req models sessions fresh).2 = sessions) ∧
    (∀ req sid, req.method = "session.generate" →
        getString req.params "session_id" = some sid →
        getString req.params "prompt" = none →
        (process_request req models sessions fresh).2 = sessions) ∧
    (∀ req, req.method = "session.close" →
        getString req.params "session_id" = none →
        (process_request req models sessions fresh).2 = sessions) ∧
    (∀ req model, req.method = "session.create" →
        getString req.params "model" = some model → (models.lookup model).isSome →
        ∀ k, k ≠ fresh → (process_request req models sessions fresh).2 k = sessions k) ∧
    (∀ req sid sess, req.method = "session.close" →
        getString req.params "session_id" = some sid → sessions sid = some sess →
        ∀ k, k ≠ sid → (process_request req models sessions fresh).2 k = sessions k) ∧
    (∀ req k, (process_request req models sessions fresh).2 k ≠ sessions k →
        k = fresh ∨ getString req.params "session_id" = some k) := by
  refine ⟨?_, ?_, ?_, ?_, ?_, ?_, ?_, ?_, ?_⟩
  · intro req hm
    rw [pr_list req models sessions fresh hm]
  · intro req h1 h2 h3 h4
    rw [pr_unknown req models sessions fresh h1 h2 h3 h4]
  · intro req hm hg
    rw [pr_create_missing req models sessions fresh hm hg]
  · intro req hm hg
    rw [pr_gen_missing_sid req models sessions fresh hm hg]
  · intro req sid hm hg hp
    rw [pr_gen_missing_prompt req models sessions fresh sid hm hg hp]
  · intro req hm hg
    rw [pr_close_missing req models sessions fresh hm hg]
  · intro req model hm hg hl k hk
    rw [pr_create_ok req models sessions fresh model hm hg hl]
    exact insert_apply_ne _ _ _ _ hk
  · intro req sid sess hm hg hs k hk
    rw [pr_close_ok req models sessions fresh sid sess hm hg hs]
    exact remove_apply_ne _ _ _ hk
  · intro req k hne
    by_cases h1 : req.method = "session.create"
    · rcases hg : getString req.params "model" with _ | model
      · rw [pr_create_missing req models sessions fresh h1 hg] at hne
        exact absurd rfl hne
      · rcases hl : models.lookup model with _ | v
        · rw [pr_create_unknown_model req models sessions fresh model h1 hg hl] at hne
          exact absurd rfl hne
        · by_cases hkf : k = fresh
          · exact .inl hkf
          · rw [pr_create_ok req models sessions fresh model h1 hg (by rw [hl]; rfl)] at hne
            replace hne :
                (Sessions.insert sessions fresh { model := model, context := [] }) k ≠
                  sessions k := hne
            rw [insert_apply_ne _ _ _ _ hkf] at hne
            exact absurd rfl hne
    · by_cases h2 : req.method = "session.generate"
      · rcases hg : getString req.params "session_id" with _ | sid
        · rw [pr_gen_missing_sid req models sessions fresh h2 hg] at hne
          exact absurd rfl hne
        · rcases hp : getString req.params "prompt" with _ | P
          · rw [pr_gen_missing_prompt req models sessions fresh sid h2 hg hp] at hne
            exact absurd rfl hne
          · rcases hs : sessions sid with _ | sess
            · rw [pr_gen_no_session req models sessions fresh sid P h2 hg hp hs] at hne
              exact absurd rfl hne
            · rcases hl : models.lookup sess.model with _ | hdl
              · rw [pr_gen_no_handler req models sessions fresh sid P sess
                    h2 hg hp hs hl] at hne
                exact absurd rfl hne
              · rcases hres : hdl P sess.context with e | r
                · rw [pr_gen_handler_err req models sessions fresh sid P sess hdl e
                      h2 hg hp hs hl hres] at hne
                  exact absurd rfl hne
                · by_cases hks : k = sid
                  · rw [hks]
                    exact .inr rfl
                  · rw [pr_gen_ok req models sessions fresh sid P sess hdl r
                        h2 hg hp hs hl hres] at hne
                    replace hne :
                        (Sessions.insert sessions sid
                          { model := sess.model,
                            context := sess.context ++ [P, r] }) k ≠ sessions k := hne
                    rw [insert_apply_ne _ _ _ _ hks] at hne
                    exact absurd rfl hne
      · by_cases h3 : req.method = "session.close"
        · rcases hg : getString req.params "session_id" with _ | sid
          · rw [pr_close_missing req models sessions fresh h3 hg] at hne
            exact absurd rfl hne
          · rcases hs : sessions sid with _ | sess
            · rw [pr_close_not_found req models sessions fresh sid h3 hg hs] at hne
              exact absurd rfl hne
            · by_cases hks : k = sid
              · rw [hks]
                exact .inr rfl
              · rw [pr_close_ok req models sessions fresh sid sess h3 hg hs] at hne
                replace hne : (Sessions.remove sessions sid) k ≠ sessions k := hne
                rw [remove_apply_ne _ _ _ hks] at hne
                exact absurd rfl hne
        · by_cases h4 : req.method = "models.list"
          · rw [pr_list req models sessions fresh h4] at hne
            exact absurd rfl hne
          · rw [pr_unknown req models sessions fresh h1 h2 h3 h4] at hne
            exact absurd rfl hne

/-- C10 witness: a models.list request leaves the one-session store
untouched, and a close of sid-1 does not touch the key other. -/
theorem c10_witness :
    (process_request listReq exampleModels store1 "f").2 = store1 ∧
    (process_request (closeReq "sid-1") exampleModels store1 "f").2 "other" =
      store1 "other" :=
  ⟨(c10_frame_effects exampleModels store1 "f").1 listReq rfl,
   (c10_frame_effects exampleModels store1 "f").2.2.2.2.2.2.2.1 (closeReq "sid-1")
      "sid-1" { model := "example-model", context := [] } rfl rfl rfl "other" (by decide)⟩

/-- C5 witness: creating a session for the registered example model stores
an empty-context session under the fresh id, and an unknown model is
rejected with -32602 leaving the store unchanged. -/
theorem c5_witness :
    (process_request (createReq "example-model") exampleModels emptySessions "sid-1").2 "sid-1" =
      some { model := "example-model", context := [] } ∧
    (process_request (createReq "nope") exampleModels emptySessions "sid-1").1.error =
      some { code := -32602, message := "Model not found: nope" } :=
  ⟨((c5_create_behavior (createReq "example-model") exampleModels emptySessions "sid-1").1
      "example-model" rfl rfl rfl).2,
   ((c5_create_behavior (createReq "nope") exampleModels emptySessions "sid-1").2.1
      "nope" rfl rfl rfl).1⟩

end MCP
